import Mathlib

/-!
Verification of the real-time notification core of the task-management backend:
the WebSocket `ConnectionManager` (connection registry), the
`NotificationService` (store-backed dispatcher) and the WebSocket endpoint's
authentication boundary, shallowly embedded from
`backend/app/services/notification_service.py`,
`backend/app/models/notification.py`,
`backend/app/api/v1/notifications.py` and `backend/app/api/deps/__init__.py`.

Connections are identified by natural numbers; the registry is an association
list from user id to the user's set of connections (kept duplicate-free, as a
Python `set` is).  Per-connection send outcomes are an oracle
`sendOk : Nat → Bool` (`false` = the transport send raises), and the store
flush outcome is a boolean `flushOk` (`false` = the database write raises).
Timestamps are abstract naturals passed in as `now`.
-/

namespace TaskMgmt

/-! ## Connection registry (`ConnectionManager`) -/

/-- `ConnectionManager.active_connections`: per-user set of open connections,
as an association list from user id to connection list. -/
abbrev Registry := List (Nat × List Nat)

/-- Membership-style lookup of a user's connection set
(`user_id in self.active_connections` / `self.active_connections[user_id]`). -/
def lookupUser : Registry → Nat → Option (List Nat)
  | [], _ => none
  | (v, conns) :: rest, u => if v = u then some conns else lookupUser rest u

/-- `ConnectionManager.connect`: accept the handshake, then add the connection
to the user's set (`defaultdict` auto-creates the entry on first access;
`set.add` is idempotent on an identical handle). -/
def connect (reg : Registry) (ws u : Nat) : Registry :=
  match reg with
  | [] => [(u, [ws])]
  | (v, conns) :: rest =>
    if v = u then (v, if ws ∈ conns then conns else conns ++ [ws]) :: rest
    else (v, conns) :: connect rest ws u

/-- `ConnectionManager.disconnect`: `set.discard` the connection, then delete
the key if its set became empty.  On an absent user the `defaultdict` creates
an empty set which the emptiness check immediately deletes again, so the
registry is observably unchanged. -/
def disconnect (reg : Registry) (ws u : Nat) : Registry :=
  match reg with
  | [] => []
  | (v, conns) :: rest =>
    if v = u then
      if conns.erase ws = [] then rest else (v, conns.erase ws) :: rest
    else (v, conns) :: disconnect rest ws u

/-- Payload `data` of the live-update message built in
`NotificationService._send_notification`. -/
structure WsData where
  id : Nat
  type : String
  title : String
  message : String
  related_task_id : Option Nat
  related_team_id : Option Nat
  created_at : Nat
deriving DecidableEq, Repr

/-- The live-update message `{"type": "notification", "data": {...}}`. -/
structure WsMessage where
  type : String
  data : WsData
deriving DecidableEq, Repr

/-- One `connection.send_json(message)` attempt: raises iff the oracle says the
connection's transport send fails. -/
def send_json (sendOk : Nat → Bool) (c : Nat) : Except Unit Unit :=
  if sendOk c then Except.ok () else Except.error ()

/-- The `for connection in self.active_connections[user_id]` loop of
`send_personal_message`: each send is wrapped in `try/except Exception: pass`,
so a raising send is swallowed and the loop continues.  Returns the list of
(connection, message) deliveries that succeeded. -/
def sendLoop (sendOk : Nat → Bool) (msg : WsMessage) : List Nat → List (Nat × WsMessage)
  | [] => []
  | c :: cs =>
    match send_json sendOk c with
    | Except.ok _ => (c, msg) :: sendLoop sendOk msg cs
    | Except.error _ => sendLoop sendOk msg cs

/-- `ConnectionManager.send_personal_message`: if the user has an entry, try a
send on each of the user's connections; otherwise do nothing.  The return type
carries no exception: every per-connection failure is caught inside. -/
def send_personal_message (reg : Registry) (msg : WsMessage) (u : Nat)
    (sendOk : Nat → Bool) : List (Nat × WsMessage) :=
  match lookupUser reg u with
  | some conns => sendLoop sendOk msg conns
  | none => []

/-! ## Notification data model (`app/models/notification.py`) -/

/-- `NotificationType` enumeration. -/
inductive NotificationType where
  | task_assigned
  | task_updated
  | task_completed
  | task_due_soon
  | task_overdue
  | team_invited
  | team_removed
  | comment_added
  | mention
  | system
deriving DecidableEq, Repr

/-- `NotificationType.value`: the string value of the enum member. -/
def NotificationType.value : NotificationType → String
  | task_assigned => "task_assigned"
  | task_updated => "task_updated"
  | task_completed => "task_completed"
  | task_due_soon => "task_due_soon"
  | task_overdue => "task_overdue"
  | team_invited => "team_invited"
  | team_removed => "team_removed"
  | comment_added => "comment_added"
  | mention => "mention"
  | system => "system"

/-- The `Notification` ORM row. -/
structure Notification where
  id : Nat
  user_id : Nat
  type : NotificationType
  title : String
  message : String
  related_task_id : Option Nat
  related_team_id : Option Nat
  is_read : Bool
  created_at : Nat
  read_at : Option Nat
deriving DecidableEq, Repr

/-- The `NotificationCreate` input schema. -/
structure NotificationCreate where
  user_id : Nat
  type : NotificationType
  title : String
  message : String
  related_task_id : Option Nat
  related_team_id : Option Nat
deriving DecidableEq, Repr

/-- The notifications table plus the autoincrement counter that assigns ids. -/
structure Store where
  rows : List Notification
  nextId : Nat
deriving DecidableEq, Repr

/-! ## Notification service (`NotificationService`) -/

/-- The unread-rows-of-a-user predicate used by both `mark_all_as_read` and
`get_unread_count` (`Notification.user_id == user_id, Notification.is_read == False`). -/
def unreadOf (uid : Nat) (n : Notification) : Bool :=
  n.user_id == uid && n.is_read == false

/-- `NotificationService.get_by_id`: `select ... where id == notification_id`. -/
def get_by_id (s : Store) (nid : Nat) : Option Notification :=
  s.rows.find? (fun n => n.id == nid)

/-- The message dict built by `NotificationService._send_notification`. -/
def mkWsMessage (n : Notification) : WsMessage :=
  { type := "notification"
    data :=
      { id := n.id
        type := n.type.value
        title := n.title
        message := n.message
        related_task_id := n.related_task_id
        related_team_id := n.related_team_id
        created_at := n.created_at } }

/-- `NotificationService._send_notification`: build the live-update message
from the persisted record and hand it to the registry's targeted send. -/
def send_notification (reg : Registry) (sendOk : Nat → Bool) (n : Notification) :
    List (Nat × WsMessage) :=
  send_personal_message reg (mkWsMessage n) n.user_id sendOk

/-- `NotificationService.create`: build the row, `db.add`/`db.flush` it (a flush
failure raises out of `create` before any push), then attempt the live push and
return the persisted record.  The returned triple is the record, the store
after the flush, and the list of successful live deliveries. -/
def create (s : Store) (reg : Registry) (sendOk : Nat → Bool) (flushOk : Bool)
    (d : NotificationCreate) (now : Nat) :
    Except Unit (Notification × Store × List (Nat × WsMessage)) :=
  let n : Notification :=
    { id := s.nextId
      user_id := d.user_id
      type := d.type
      title := d.title
      message := d.message
      related_task_id := d.related_task_id
      related_team_id := d.related_team_id
      is_read := false
      created_at := now
      read_at := none }
  if flushOk then
    Except.ok (n, ⟨s.rows ++ [n], s.nextId + 1⟩, send_notification reg sendOk n)
  else
    Except.error ()

/-- `NotificationService.get_user_notifications`: filter by user (and unread
flag), count the total, order newest-first by creation time, then paginate. -/
def get_user_notifications (s : Store) (uid : Nat) (unread_only : Bool)
    (page pageSize : Nat) : List Notification × Nat :=
  let base := s.rows.filter (fun n => n.user_id == uid)
  let filtered := if unread_only then base.filter (fun n => n.is_read == false) else base
  let sorted := filtered.mergeSort (fun a b => decide (b.created_at ≤ a.created_at))
  ((sorted.drop ((page - 1) * pageSize)).take pageSize, filtered.length)

/-- `NotificationService.mark_as_read`: fetch by id; absent or not owned by the
caller gives `None` with the store untouched; otherwise flip the read flag, set
the read timestamp and return the record. -/
def mark_as_read (s : Store) (nid uid now : Nat) : Option Notification × Store :=
  match get_by_id s nid with
  | none => (none, s)
  | some n =>
    if n.user_id ≠ uid then (none, s)
    else
      (some { n with is_read := true, read_at := some now },
       ⟨s.rows.map (fun m =>
          if m.id == nid then { n with is_read := true, read_at := some now } else m),
        s.nextId⟩)

/-- `NotificationService.mark_all_as_read`: one bulk `UPDATE ... WHERE user_id
== uid AND is_read == False SET is_read=True, read_at=now`; returns the
rowcount of matched rows. -/
def mark_all_as_read (s : Store) (uid now : Nat) : Nat × Store :=
  ((s.rows.filter (unreadOf uid)).length,
   ⟨s.rows.map (fun n =>
      if unreadOf uid n then { n with is_read := true, read_at := some now } else n),
    s.nextId⟩)

/-- `NotificationService.delete`: same ownership check as `mark_as_read`;
removes the row and reports success. -/
def delete (s : Store) (nid uid : Nat) : Bool × Store :=
  match get_by_id s nid with
  | none => (false, s)
  | some n =>
    if n.user_id ≠ uid then (false, s)
    else (true, ⟨s.rows.filter (fun m => ¬(m.id == nid)), s.nextId⟩)

/-- `NotificationService.get_unread_count`: `count(*) where user_id == uid and
is_read == False`. -/
def get_unread_count (s : Store) (uid : Nat) : Nat :=
  (s.rows.filter (unreadOf uid)).length

/-- `NotificationService.notify_task_assigned`: convenience constructor filling
in the `task_assigned` kind, the fixed title and the interpolated message. -/
def notify_task_assigned (s : Store) (reg : Registry) (sendOk : Nat → Bool)
    (flushOk : Bool) (task_id : Nat) (task_title : String) (assignee_id : Nat)
    (assigner_name : String) (now : Nat) :
    Except Unit (Notification × Store × List (Nat × WsMessage)) :=
  create s reg sendOk flushOk
    { user_id := assignee_id
      type := NotificationType.task_assigned
      title := "New Task Assigned"
      message := assigner_name ++ " assigned you to task \"" ++ task_title ++ "\""
      related_task_id := some task_id
      related_team_id := none } now

/-! ## WebSocket endpoint (`app/api/v1/notifications.py`, `app/api/deps`) -/

/-- The decoded JWT payload as read by the WebSocket path (only `"sub"`). -/
structure TokenPayload where
  sub : Option Nat
deriving DecidableEq, Repr

/-- `get_current_user_ws`: token from the query params, decode it, read the
`sub` claim, look the user up; any failure yields `None`. -/
def get_current_user_ws (tokenParam : Option String)
    (decode_token : String → Option TokenPayload)
    (get_user : Nat → Option Nat) : Option Nat :=
  match tokenParam with
  | none => none
  | some tok =>
    match decode_token tok with
    | none => none
    | some payload =>
      match payload.sub with
      | none => none
      | some uid => get_user uid

/-- Observable outcome of the `websocket_endpoint` handshake phase. -/
inductive WsOutcome where
  | closed (code : Nat) (reason : String)
  | accepted (uid : Nat)
deriving DecidableEq, Repr

/-- `websocket_endpoint` up to registration: a missing token closes with
`(4001, "Missing token")`, a token that fails authentication closes with
`(4001, "Invalid token")`, both before touching the registry; otherwise the
connection is registered for the resolved user. -/
def websocket_endpoint (reg : Registry) (ws : Nat) (tokenParam : Option String)
    (decode_token : String → Option TokenPayload)
    (get_user : Nat → Option Nat) : WsOutcome × Registry :=
  match tokenParam with
  | none => (WsOutcome.closed 4001 "Missing token", reg)
  | some tok =>
    match get_current_user_ws (some tok) decode_token get_user with
    | none => (WsOutcome.closed 4001 "Invalid token", reg)
    | some uid => (WsOutcome.accepted uid, connect reg ws uid)

/-! ## Registry operation sequences -/

/-- One registry call: `connect` or `disconnect` with a connection and user. -/
inductive RegOp where
  | conn (ws u : Nat)
  | disc (ws u : Nat)
deriving DecidableEq, Repr

/-- Apply one registry call. -/
def applyOp (reg : Registry) : RegOp → Registry
  | RegOp.conn ws u => connect reg ws u
  | RegOp.disc ws u => disconnect reg ws u

/-- Run a sequence of registry calls from the initial empty registry. -/
def runOps (ops : List RegOp) : Registry :=
  ops.foldl applyOp []

/-- No key of the registry holds an empty connection set. -/
def noEmptyKeys (reg : Registry) : Prop :=
  ∀ p ∈ reg, p.2 ≠ []

/-! ## Theorems -/

lemma sendLoop_eq_filter (sendOk : Nat → Bool) (msg : WsMessage) (l : List Nat) :
    sendLoop sendOk msg l = (l.filter sendOk).map (fun c => (c, msg)) := by
  induction l with
  | nil => rfl
  | cons a as ih =>
    by_cases h : sendOk a <;> simp [sendLoop, send_json, h, ih, List.filter_cons]

/-- C2: multi-connection fan-out with failure isolation.  With `conns` the
connection set registered for user `u`, one `send_personal_message` call
delivers the message to every connection whose send succeeds; in particular a
connection whose send raises does not prevent delivery to any other
connection; and every delivery went to a registered connection.  The function
returns a plain delivery list (no exception escapes to the caller). -/
theorem send_personal_message_fanout (reg : Registry) (u : Nat) (msg : WsMessage)
    (sendOk : Nat → Bool) (conns : List Nat)
    (hc : lookupUser reg u = some conns) :
    (∀ c ∈ conns, sendOk c = true → (c, msg) ∈ send_personal_message reg msg u sendOk) ∧
    (∀ c ∈ conns, sendOk c = false →
      ∀ c2 ∈ conns, sendOk c2 = true → (c2, msg) ∈ send_personal_message reg msg u sendOk) ∧
    (∀ p ∈ send_personal_message reg msg u sendOk,
      p.1 ∈ conns ∧ sendOk p.1 = true ∧ p.2 = msg) := by
  have hmem : ∀ c, (c, msg) ∈ send_personal_message reg msg u sendOk ↔
      c ∈ conns ∧ sendOk c = true := by
    intro c
    simp [send_personal_message, hc, sendLoop_eq_filter, List.mem_map, List.mem_filter]
  refine ⟨fun c hcm hok => (hmem c).mpr ⟨hcm, hok⟩,
    fun _ _ _ c2 hc2 hok2 => (hmem c2).mpr ⟨hc2, hok2⟩, ?_⟩
  intro p hp
  have : p.1 ∈ conns ∧ sendOk p.1 = true ∧ p.2 = msg := by
    revert hp
    simp [send_personal_message, hc, sendLoop_eq_filter, List.mem_map, List.mem_filter]
    rintro x hx hok rfl
    exact ⟨hx, hok, rfl⟩
  exact this

/-- Witness for C2: user 7 holds connections 1 and 2; the send to connection 1
raises, yet connection 2 still receives the message. -/
theorem send_personal_message_fanout_witness :
    (2, WsMessage.mk "notification" ⟨1, "system", "t", "m", none, none, 0⟩) ∈
      send_personal_message [(7, [1, 2])]
        (WsMessage.mk "notification" ⟨1, "system", "t", "m", none, none, 0⟩) 7
        (fun c => c == 2) := by
  have h := send_personal_message_fanout [(7, [1, 2])] 7
    (WsMessage.mk "notification" ⟨1, "system", "t", "m", none, none, 0⟩)
    (fun c => c == 2) [1, 2] rfl
  exact h.2.1 1 (by decide) (by decide) 2 (by decide) (by decide)

/-- C4: ownership is indistinguishable from absence.  Calling `mark_as_read`
or `delete` on a notification the caller does not own yields exactly the same
outcome as calling it with a nonexistent id — `None`/`False` with the store
unchanged in all four cases. -/
theorem ownership_indistinguishable_from_absence (s : Store) (nid nid2 uid now : Nat)
    (n : Notification) (hfind : get_by_id s nid = some n) (hne : n.user_id ≠ uid)
    (habs : get_by_id s nid2 = none) :
    mark_as_read s nid uid now = (none, s) ∧
    mark_as_read s nid2 uid now = (none, s) ∧
    delete s nid uid = (false, s) ∧
    delete s nid2 uid = (false, s) := by
  refine ⟨?_, ?_, ?_, ?_⟩ <;> simp [mark_as_read, delete, hfind, habs, hne]

/-- Witness for C4: a store holding notification 1 owned by user 5; caller 6
gets `not found` on id 1 exactly as on the absent id 99, with the store
untouched. -/
theorem ownership_indistinguishable_from_absence_witness :
    mark_as_read ⟨[⟨1, 5, NotificationType.system, "t", "m", none, none, false, 0, none⟩], 2⟩
        1 6 50 =
      (none, ⟨[⟨1, 5, NotificationType.system, "t", "m", none, none, false, 0, none⟩], 2⟩) ∧
    mark_as_read ⟨[⟨1, 5, NotificationType.system, "t", "m", none, none, false, 0, none⟩], 2⟩
        99 6 50 =
      (none, ⟨[⟨1, 5, NotificationType.system, "t", "m", none, none, false, 0, none⟩], 2⟩) ∧
    delete ⟨[⟨1, 5, NotificationType.system, "t", "m", none, none, false, 0, none⟩], 2⟩ 1 6 =
      (false, ⟨[⟨1, 5, NotificationType.system, "t", "m", none, none, false, 0, none⟩], 2⟩) ∧
    delete ⟨[⟨1, 5, NotificationType.system, "t", "m", none, none, false, 0, none⟩], 2⟩ 99 6 =
      (false, ⟨[⟨1, 5, NotificationType.system, "t", "m", none, none, false, 0, none⟩], 2⟩) :=
  ownership_indistinguishable_from_absence _ 1 99 6 50
    ⟨1, 5, NotificationType.system, "t", "m", none, none, false, 0, none⟩
    rfl (by decide) rfl

/-- C5: a flush failure inside `create` propagates to the caller unmodified
and no push is attempted; when the flush succeeds the record is appended to
the store regardless of the per-connection send outcomes, and `create` returns
normally for every send-failure pattern (a live-push failure never propagates
out of `create`). -/
theorem create_propagation (s : Store) (reg : Registry) (sendOk : Nat → Bool)
    (d : NotificationCreate) (now : Nat) :
    create s reg sendOk false d now = Except.error () ∧
    ∃ n s2 delivered, create s reg sendOk true d now = Except.ok (n, s2, delivered) ∧
      s2.rows = s.rows ++ [n] :=
  ⟨rfl, _, _, _, rfl, rfl⟩

/-- C9: `mark_as_read` invoked by the owner on an already-read notification
does not report "not found": it returns the record again, keeps `is_read`
true, and overwrites `read_at` with the new call's timestamp, leaving the
identity and content fields intact. -/
theorem mark_as_read_already_read (s : Store) (nid uid now : Nat) (n : Notification)
    (hfind : get_by_id s nid = some n) (howner : n.user_id = uid)
    (_hread : n.is_read = true) :
    ∃ n2, (mark_as_read s nid uid now).1 = some n2 ∧
      n2.is_read = true ∧ n2.read_at = some now ∧
      n2.id = n.id ∧ n2.user_id = n.user_id ∧
      n2.title = n.title ∧ n2.message = n.message := by
  refine ⟨{ n with is_read := true, read_at := some now }, ?_, rfl, rfl, rfl, rfl, rfl, rfl⟩
  simp [mark_as_read, hfind, howner]

/-- Witness for C9: notification 1, owned by user 5 and already read at time
10, marked read again by user 5 at time 50: the call succeeds and `read_at`
becomes 50. -/
theorem mark_as_read_already_read_witness :
    ∃ n2, (mark_as_read
        ⟨[⟨1, 5, NotificationType.system, "t", "m", none, none, true, 0, some 10⟩], 2⟩
        1 5 50).1 = some n2 ∧
      n2.is_read = true ∧ n2.read_at = some 50 ∧
      n2.id = 1 ∧ n2.user_id = 5 ∧ n2.title = "t" ∧ n2.message = "m" :=
  mark_as_read_already_read _ 1 5 50
    ⟨1, 5, NotificationType.system, "t", "m", none, none, true, 0, some 10⟩
    rfl rfl rfl

/-- C7 (Scenario A): with no live connection for user 7, creating a
`task_assigned` notification for task 42 "Ship release" by "alice" persists a
record with kind `task_assigned`, title "New Task Assigned", a message
containing both "alice" and "Ship release", `related_task_id` 42 and
`is_read` false; the unread count for user 7 is then 1 and the push was a
no-op, not an error. -/
theorem notify_task_assigned_scenario :
    ∃ n s2 delivered,
      notify_task_assigned ⟨[], 1⟩ [] (fun _ => true) true 42 "Ship release" 7 "alice" 100 =
        Except.ok (n, s2, delivered) ∧
      n.type = NotificationType.task_assigned ∧
      n.title = "New Task Assigned" ∧
      "alice".toList <:+: n.message.toList ∧
      "Ship release".toList <:+: n.message.toList ∧
      n.related_task_id = some 42 ∧
      n.is_read = false ∧
      get_unread_count s2 7 = 1 ∧
      delivered = [] := by
  refine ⟨_, _, _, rfl, rfl, rfl, ?_, ?_, rfl, rfl, rfl, rfl⟩ <;> decide

lemma unread_after_mark (rows : List Notification) (uid now : Nat) :
    (rows.map (fun n =>
      if unreadOf uid n then { n with is_read := true, read_at := some now } else n)).filter
        (unreadOf uid) = [] := by
  rw [List.filter_eq_nil_iff]
  intro a ha
  rw [List.mem_map] at ha
  obtain ⟨b, _, rfl⟩ := ha
  by_cases hub : unreadOf uid b
  · rw [if_pos hub]
    simp [unreadOf]
  · rw [if_neg hub]
    exact hub

/-- C6: `mark_all_as_read` returns the count of the caller's notifications
that were unread at the time of the call and flips exactly those; when the
caller has at least one unread notification, a first call returns that
nonzero count, a second call returns zero, and the caller is left with no
unread notifications. -/
theorem mark_all_as_read_idempotent (s : Store) (uid now now2 : Nat)
    (h : 0 < get_unread_count s uid) :
    (mark_all_as_read s uid now).1 = get_unread_count s uid ∧
    (mark_all_as_read s uid now).1 ≠ 0 ∧
    get_unread_count (mark_all_as_read s uid now).2 uid = 0 ∧
    (mark_all_as_read (mark_all_as_read s uid now).2 uid now2).1 = 0 := by
  have hz : get_unread_count (mark_all_as_read s uid now).2 uid = 0 := by
    show ((s.rows.map _).filter (unreadOf uid)).length = 0
    rw [unread_after_mark]
    rfl
  exact ⟨rfl, Nat.pos_iff_ne_zero.mp h, hz, hz⟩

/-- Witness for C6: user 7 holds one unread notification; the first
`mark_all_as_read` returns 1, the second returns 0 and no unread remain. -/
theorem mark_all_as_read_idempotent_witness :
    (mark_all_as_read
        ⟨[⟨1, 7, NotificationType.system, "t", "m", none, none, false, 0, none⟩], 2⟩
        7 40).1 =
      get_unread_count
        ⟨[⟨1, 7, NotificationType.system, "t", "m", none, none, false, 0, none⟩], 2⟩ 7 ∧
    (mark_all_as_read
        ⟨[⟨1, 7, NotificationType.system, "t", "m", none, none, false, 0, none⟩], 2⟩
        7 40).1 ≠ 0 ∧
    get_unread_count
      (mark_all_as_read
        ⟨[⟨1, 7, NotificationType.system, "t", "m", none, none, false, 0, none⟩], 2⟩
        7 40).2 7 = 0 ∧
    (mark_all_as_read
      (mark_all_as_read
        ⟨[⟨1, 7, NotificationType.system, "t", "m", none, none, false, 0, none⟩], 2⟩
        7 40).2 7 41).1 = 0 :=
  mark_all_as_read_idempotent
    ⟨[⟨1, 7, NotificationType.system, "t", "m", none, none, false, 0, none⟩], 2⟩
    7 40 41 (by decide)

/-- C10: frame property of `mark_all_as_read`.  The bulk update preserves the
row count, and every row that does not belong to the calling user or is
already read is left completely unchanged (all fields, `read_at` included). -/
theorem mark_all_as_read_frame (s : Store) (uid now : Nat) :
    ∃ hlen : (mark_all_as_read s uid now).2.rows.length = s.rows.length,
      ∀ i : Fin s.rows.length,
        (s.rows.get i).user_id ≠ uid ∨ (s.rows.get i).is_read = true →
          (mark_all_as_read s uid now).2.rows.get (Fin.cast hlen.symm i) = s.rows.get i := by
  refine ⟨by simp [mark_all_as_read], ?_⟩
  intro i hi
  have hcond : unreadOf uid (s.rows.get i) = false := by
    rcases hi with hne | hrd
    · simp only [unreadOf, Bool.and_eq_false_imp, beq_iff_eq, beq_eq_false_iff_ne]
      intro h
      exact absurd h hne
    · simp only [unreadOf, Bool.and_eq_false_imp, beq_iff_eq, beq_eq_false_iff_ne]
      intro _
      rw [hrd]
      decide
  rw [List.get_eq_getElem] at hcond
  simp [mark_all_as_read, List.get_eq_getElem, List.getElem_map, hcond]

/-- Witness for C10: a store with a row of another user (6) and an
already-read row of the caller (7); `mark_all_as_read` for user 7 leaves both
rows exactly as they were. -/
theorem mark_all_as_read_frame_witness :
    (mark_all_as_read
      ⟨[⟨1, 6, NotificationType.system, "a", "b", none, none, false, 0, none⟩,
        ⟨2, 7, NotificationType.system, "c", "d", none, none, true, 1, some 9⟩], 3⟩
      7 40).2.rows.get ⟨0, by decide⟩ =
      ⟨1, 6, NotificationType.system, "a", "b", none, none, false, 0, none⟩ ∧
    (mark_all_as_read
      ⟨[⟨1, 6, NotificationType.system, "a", "b", none, none, false, 0, none⟩,
        ⟨2, 7, NotificationType.system, "c", "d", none, none, true, 1, some 9⟩], 3⟩
      7 40).2.rows.get ⟨1, by decide⟩ =
      ⟨2, 7, NotificationType.system, "c", "d", none, none, true, 1, some 9⟩ := by
  obtain ⟨hlen, hframe⟩ := mark_all_as_read_frame
    ⟨[⟨1, 6, NotificationType.system, "a", "b", none, none, false, 0, none⟩,
      ⟨2, 7, NotificationType.system, "c", "d", none, none, true, 1, some 9⟩], 3⟩
    7 40
  exact ⟨hframe ⟨0, by decide⟩ (by left; decide), hframe ⟨1, by decide⟩ (by right; decide)⟩

/-- C8: a live-connection request with a missing token is closed with
`(4001, "Missing token")` and one whose credential fails authentication is
closed with `(4001, "Invalid token")`; in both cases the registry is returned
unchanged (no `connect` happens) and the handler returns normally — no
notification-layer error is raised. -/
theorem websocket_endpoint_rejects (reg : Registry) (ws : Nat)
    (decode_token : String → Option TokenPayload) (get_user : Nat → Option Nat)
    (tok : String)
    (hbad : get_current_user_ws (some tok) decode_token get_user = none) :
    websocket_endpoint reg ws none decode_token get_user =
      (WsOutcome.closed 4001 "Missing token", reg) ∧
    websocket_endpoint reg ws (some tok) decode_token get_user =
      (WsOutcome.closed 4001 "Invalid token", reg) := by
  exact ⟨rfl, by simp [websocket_endpoint, hbad]⟩

/-- Witness for C8: an empty registry, no token in one request and an
undecodable token "bad" in the other; both are closed with code 4001 and the
matching reason, and the registry stays empty. -/
theorem websocket_endpoint_rejects_witness :
    websocket_endpoint [] 0 none (fun _ => none) (fun _ => none) =
      (WsOutcome.closed 4001 "Missing token", []) ∧
    websocket_endpoint [] 0 (some "bad") (fun _ => none) (fun _ => none) =
      (WsOutcome.closed 4001 "Invalid token", []) :=
  websocket_endpoint_rejects [] 0 (fun _ => none) (fun _ => none) "bad" rfl

lemma lookupUser_eq_none (reg : Registry) (u : Nat) (h : u ∉ reg.map Prod.fst) :
    lookupUser reg u = none := by
  induction reg with
  | nil => rfl
  | cons p rest ih =>
    obtain ⟨v, conns⟩ := p
    simp only [List.map_cons, List.mem_cons, not_or] at h
    rw [lookupUser, if_neg (fun hv => h.1 hv.symm), ih h.2]

lemma connect_keys (reg : Registry) (ws u : Nat) :
    (connect reg ws u).map Prod.fst =
      if u ∈ reg.map Prod.fst then reg.map Prod.fst
      else reg.map Prod.fst ++ [u] := by
  induction reg with
  | nil => simp [connect]
  | cons p rest ih =>
    obtain ⟨v, conns⟩ := p
    by_cases hv : v = u
    · subst hv
      rw [connect, if_pos rfl]
      simp
    · have hne : ¬(u = v) := fun h => hv h.symm
      rw [connect, if_neg hv]
      simp only [List.map_cons, ih, List.mem_cons, hne, false_or]
      by_cases hm : u ∈ rest.map Prod.fst
      · rw [if_pos hm, if_pos hm]
      · rw [if_neg hm, if_neg hm, List.cons_append]

lemma connect_nodup (reg : Registry) (ws u : Nat)
    (h : (reg.map Prod.fst).Nodup) : ((connect reg ws u).map Prod.fst).Nodup := by
  rw [connect_keys]
  by_cases hm : u ∈ reg.map Prod.fst
  · rwa [if_pos hm]
  · rw [if_neg hm, List.nodup_append]
    refine ⟨h, List.nodup_singleton u, ?_⟩
    intro a ha hau
    rw [List.mem_singleton] at hau
    subst hau
    exact hm ha

lemma disconnect_keys_sublist (reg : Registry) (ws u : Nat) :
    ((disconnect reg ws u).map Prod.fst).Sublist (reg.map Prod.fst) := by
  induction reg with
  | nil => simp [disconnect]
  | cons p rest ih =>
    obtain ⟨v, conns⟩ := p
    by_cases hv : v = u
    · subst hv
      rw [disconnect, if_pos rfl]
      by_cases he : conns.erase ws = []
      · rw [if_pos he]
        exact List.Sublist.cons _ (List.Sublist.refl _)
      · rw [if_neg he]
        exact List.Sublist.refl _
    · rw [disconnect, if_neg hv]
      exact List.Sublist.cons₂ _ ih

lemma disconnect_nodup (reg : Registry) (ws u : Nat)
    (h : (reg.map Prod.fst).Nodup) : ((disconnect reg ws u).map Prod.fst).Nodup :=
  (disconnect_keys_sublist reg ws u).nodup h

lemma connect_noEmpty (reg : Registry) (ws u : Nat) (h : noEmptyKeys reg) :
    noEmptyKeys (connect reg ws u) := by
  induction reg with
  | nil =>
    intro p hp
    rw [connect] at hp
    simp only [List.mem_singleton] at hp
    subst hp
    simp
  | cons q rest ih =>
    obtain ⟨v, conns⟩ := q
    intro p hp
    by_cases hv : v = u
    · subst hv
      rw [connect, if_pos rfl] at hp
      rcases List.mem_cons.mp hp with hp1 | hp2
      · subst hp1
        by_cases hws : ws ∈ conns
        · simpa [hws] using h (v, conns) (List.mem_cons_self _ _)
        · simp [hws]
      · exact h p (List.mem_cons_of_mem _ hp2)
    · rw [connect, if_neg hv] at hp
      rcases List.mem_cons.mp hp with hp1 | hp2
      · subst hp1
        exact h (v, conns) (List.mem_cons_self _ _)
      · exact ih (fun q hq => h q (List.mem_cons_of_mem _ hq)) p hp2

lemma disconnect_noEmpty (reg : Registry) (ws u : Nat) (h : noEmptyKeys reg) :
    noEmptyKeys (disconnect reg ws u) := by
  induction reg with
  | nil =>
    intro p hp
    simp [disconnect] at hp
  | cons q rest ih =>
    obtain ⟨v, conns⟩ := q
    intro p hp
    by_cases hv : v = u
    · subst hv
      rw [disconnect, if_pos rfl] at hp
      by_cases he : conns.erase ws = []
      · rw [if_pos he] at hp
        exact h p (List.mem_cons_of_mem _ hp)
      · rw [if_neg he] at hp
        rcases List.mem_cons.mp hp with hp1 | hp2
        · subst hp1
          exact he
        · exact h p (List.mem_cons_of_mem _ hp2)
    · rw [disconnect, if_neg hv] at hp
      rcases List.mem_cons.mp hp with hp1 | hp2
      · subst hp1
        exact h (v, conns) (List.mem_cons_self _ _)
      · exact ih (fun q hq => h q (List.mem_cons_of_mem _ hq)) p hp2

/-- Well-formedness of the registry: keys are unique (it models a dict) and no
key holds an empty set. -/
def regWf (reg : Registry) : Prop :=
  (reg.map Prod.fst).Nodup ∧ noEmptyKeys reg

lemma applyOp_wf (reg : Registry) (op : RegOp) (h : regWf reg) :
    regWf (applyOp reg op) := by
  cases op with
  | conn ws u => exact ⟨connect_nodup reg ws u h.1, connect_noEmpty reg ws u h.2⟩
  | disc ws u => exact ⟨disconnect_nodup reg ws u h.1, disconnect_noEmpty reg ws u h.2⟩

lemma foldl_applyOp_wf (ops : List RegOp) (reg : Registry) (h : regWf reg) :
    regWf (ops.foldl applyOp reg) := by
  induction ops generalizing reg with
  | nil => exact h
  | cons op rest ih => exact ih (applyOp reg op) (applyOp_wf reg op h)

lemma runOps_wf (ops : List RegOp) : regWf (runOps ops) :=
  foldl_applyOp_wf ops [] ⟨List.nodup_nil, fun p hp => absurd hp (List.not_mem_nil p)⟩

lemma lookupUser_disconnect_last (reg : Registry) (ws u : Nat)
    (hnd : (reg.map Prod.fst).Nodup) (h : lookupUser reg u = some [ws]) :
    lookupUser (disconnect reg ws u) u = none := by
  induction reg with
  | nil => simp [lookupUser] at h
  | cons p rest ih =>
    obtain ⟨v, conns⟩ := p
    by_cases hv : v = u
    · subst hv
      rw [lookupUser, if_pos rfl, Option.some.injEq] at h
      subst h
      rw [disconnect, if_pos rfl, if_pos (by simp)]
      apply lookupUser_eq_none
      simp only [List.map_cons, List.nodup_cons] at hnd
      exact hnd.1
    · rw [lookupUser, if_neg hv] at h
      rw [disconnect, if_neg hv, lookupUser, if_neg hv]
      simp only [List.map_cons, List.nodup_cons] at hnd
      exact ih hnd.2 h

/-- C1: registry garbage collection.  After any sequence of
connect/disconnect calls starting from the empty registry, no user identity is
present as a key with an empty connection set; and when a user's registered
set consists of a single last connection, disconnecting it removes the user's
key from the registry entirely. -/
theorem registry_garbage_collection (ops : List RegOp) (ws u : Nat) :
    noEmptyKeys (runOps ops) ∧
    (lookupUser (runOps ops) u = some [ws] →
      lookupUser (disconnect (runOps ops) ws u) u = none) :=
  ⟨(runOps_wf ops).2,
   fun h => lookupUser_disconnect_last _ ws u (runOps_wf ops).1 h⟩

/-- Witness for C1: user 7 connects once (connection 1); disconnecting that
last connection leaves user 7 absent from the registry's key set. -/
theorem registry_garbage_collection_witness :
    lookupUser (disconnect (runOps [RegOp.conn 1 7]) 1 7) 7 = none :=
  (registry_garbage_collection [RegOp.conn 1 7] 1 7).2 (by decide)

lemma mem_take_drop_page {α : Type} (l : List α) (x : α) (hx : x ∈ l)
    (ps : Nat) (hps : 0 < ps) :
    ∃ pg, x ∈ (l.drop ((pg - 1) * ps)).take ps := by
  obtain ⟨i, hi, hix⟩ := List.mem_iff_getElem.mp hx
  obtain ⟨q, r, hr, rfl⟩ : ∃ q r, r < ps ∧ i = q * ps + r :=
    ⟨i / ps, i % ps, Nat.mod_lt _ hps,
     by rw [Nat.mul_comm]; exact (Nat.div_add_mod i ps).symm⟩
  refine ⟨q + 1, ?_⟩
  have hq : q + 1 - 1 = q := rfl
  rw [hq, List.mem_iff_getElem]
  have hlen : r < ((l.drop (q * ps)).take ps).length := by
    rw [List.length_take, List.length_drop]
    exact lt_min hr (by omega)
  refine ⟨r, hlen, ?_⟩
  rw [List.getElem_take, List.getElem_drop]
  exact hix

/-- C3: persistence-before-push.  With a succeeding store write, `create`
returns normally with the persisted record; that record is retrievable
immediately afterward on some page of the user's listing and contributes to
the unread count; and when the registry holds zero connections for the target
user the push is a no-op (empty delivery list), not an error. -/
theorem create_persistence_before_push (s : Store) (reg : Registry)
    (sendOk : Nat → Bool) (d : NotificationCreate) (now pageSize : Nat)
    (hps : 0 < pageSize) :
    ∃ n s2 delivered,
      create s reg sendOk true d now = Except.ok (n, s2, delivered) ∧
      (∃ pg, n ∈ (get_user_notifications s2 d.user_id false pg pageSize).1) ∧
      1 ≤ get_unread_count s2 d.user_id ∧
      (lookupUser reg d.user_id = none → delivered = []) := by
  refine ⟨_, _, _, rfl, ?_, ?_, ?_⟩
  · simp only [get_user_notifications]
    apply mem_take_drop_page _ _ _ _ hps
    rw [(List.mergeSort_perm _ _).mem_iff, if_neg (by decide), List.mem_filter]
    refine ⟨List.mem_append_right _ ?_, by simp⟩
    exact List.mem_singleton.mpr rfl
  · show 1 ≤ (((s.rows ++ [_]).filter (unreadOf d.user_id))).length
    rw [List.filter_append, List.length_append]
    have h2 : (List.filter (unreadOf d.user_id)
        [{ id := s.nextId, user_id := d.user_id, type := d.type, title := d.title,
           message := d.message, related_task_id := d.related_task_id,
           related_team_id := d.related_team_id, is_read := false,
           created_at := now, read_at := none }]).length = 1 := by
      simp [unreadOf]
    omega
  · intro h
    simp [send_notification, send_personal_message, h]

/-- Witness for C3: empty store and empty registry; creating a notification
for user 7 returns the record, it is on some page of user 7's listing, the
unread count is at least 1, and the delivery list is empty. -/
theorem create_persistence_before_push_witness :
    ∃ n s2 delivered,
      create ⟨[], 1⟩ [] (fun _ => true) true
        ⟨7, NotificationType.system, "t", "m", none, none⟩ 0 =
        Except.ok (n, s2, delivered) ∧
      (∃ pg, n ∈ (get_user_notifications s2 7 false pg 20).1) ∧
      1 ≤ get_unread_count s2 7 ∧
      (lookupUser [] 7 = none → delivered = []) :=
  create_persistence_before_push ⟨[], 1⟩ [] (fun _ => true)
    ⟨7, NotificationType.system, "t", "m", none, none⟩ 0 20 (by decide)

end TaskMgmt
